import Mathlib

/-!
Shallow embedding of the `oauth` package (an OAuth2 login middleware):
the NaCl-secretbox wrapper in `key.go`, the cookie codec and the three
HTTP handlers (`HandleLogin`, `HandleLogoff`, `HandleRedirect`).

Conventions of the embedding:
* Go byte slices and Go strings are both `List Nat`, each element standing
  for one byte (machine bytes are values mod 256; the model applies `% 256`
  exactly where the Go code's `byte`/`uint8` types truncate).
* Times are Unix seconds as `Int` (`time.Now().Unix()` is an `int64`).
* Randomness (`crypto/rand` filling a nonce) is passed in as an explicit
  byte stream `Nat → Nat`; `rand.Read` never fails in the model.
* Fallible operations return `Option`/`Except`; a Go runtime panic is an
  explicit `GoPanic` value.
-/

namespace OAuth

/-- Bytes of a Go string literal (ASCII code points). -/
def strBytes (s : String) : List Nat := s.data.map Char.toNat

/-- Go runtime panics that the embedded code can raise. -/
inductive GoPanic where
  | nilPointerDeref
  | indexOutOfRange
  deriving DecidableEq, Repr

/-- Error values (`error` interface values) used by the package. `errMsg`
stands for ad-hoc errors produced by collaborators (`errors.New`, wrapped
provider errors); the named constructors are the package-level sentinel
errors plus the two stdlib errors the handlers compare against or surface. -/
inductive GoError where
  | errNoCookie        -- http.ErrNoCookie
  | errBase64          -- base64.CorruptInputError
  | errInvalidCipher   -- ErrInvalidCipher
  | errCookieExpired   -- ErrCookieExpired
  | errCookieDomain    -- ErrCookieDomain
  | errMsg (msg : List Nat)
  deriving DecidableEq, Repr

/-- The message carried by an error value (`err.Error()` on a non-nil error);
messages of the sentinel errors are the ones in the sources. -/
def goErrorMessage : GoError → List Nat
  | .errNoCookie => strBytes "http: named cookie not present"
  | .errBase64 => strBytes "illegal base64 data"
  | .errInvalidCipher => strBytes "Invalid Cipher: could not decrypt bytes provided"
  | .errCookieExpired => strBytes "cookie expired"
  | .errCookieDomain => strBytes "cookie used for wrong domain"
  | .errMsg m => m

/-- Calling `err.Error()` on a possibly-nil Go error value: on a nil
interface value this is a nil-pointer dereference panic. -/
def goErrError : Option GoError → Except GoPanic (List Nat)
  | none => .error .nilPointerDeref
  | some e => .ok (goErrorMessage e)

/-- Equality of Go-style result pairs is decidable (used when evaluating
the model on concrete inputs). -/
instance {e a : Type} [DecidableEq e] [DecidableEq a] : DecidableEq (Except e a) :=
  fun x y =>
    match x, y with
    | .ok u, .ok v =>
      if h : u = v then .isTrue (h ▸ rfl) else .isFalse (fun hc => h (Except.ok.inj hc))
    | .error u, .error v =>
      if h : u = v then .isTrue (h ▸ rfl) else .isFalse (fun hc => h (Except.error.inj hc))
    | .ok _, .error _ => .isFalse Except.noConfusion
    | .error _, .ok _ => .isFalse Except.noConfusion

/-! ### Authenticated-encryption model (golang.org/x/crypto/nacl/secretbox)

The secretbox primitive is an external library, modelled at its interface:
`Seal` produces `tag(16) ++ ciphertext` deterministically from key, nonce
and message; `Open` recomputes and checks the tag and inverts the stream
cipher. The internal stream/MAC functions are concrete so that everything
evaluates; only the interface behaviour (round-trip, fail-closed tag check)
is relied on by the development. -/

/-- One mixing step of the model hash. -/
def hashStep (h x : Nat) : Nat := (h * 257 + x + 1) % 1000003

/-- Fold the model hash over a byte list. -/
def hashList (seed : Nat) (l : List Nat) : Nat := l.foldl hashStep seed

/-- Byte `i` of the model keystream for `(key, nonce)`. -/
def ksByte (key nonce : List Nat) (i : Nat) : Nat :=
  hashStep (hashList (hashList 5381 key) nonce) i % 256

/-- First `n` bytes of the model keystream. -/
def keystream (key nonce : List Nat) (n : Nat) : List Nat :=
  (List.range n).map (ksByte key nonce)

/-- The 16-byte authentication tag of the model AEAD. -/
def macBytes (key nonce ct : List Nat) : List Nat :=
  (List.range 16).map fun i =>
    hashStep (hashList (hashList (hashList 2166136261 key) nonce) ct) i % 256

/-- Model of `secretbox.Seal(nil, msg, nonce, key)`: 16-byte tag followed by
the stream-encrypted message. -/
def secretboxSeal (key nonce msg : List Nat) : List Nat :=
  let ct := msg.zipWith Nat.xor (keystream key nonce msg.length)
  macBytes key nonce ct ++ ct

/-- Model of `secretbox.Open(nil, box, nonce, key)`: checks the tag and
decrypts; `none` is Go's `ok == false`. -/
def secretboxOpen (key nonce box : List Nat) : Option (List Nat) :=
  if box.length < 16 then none
  else
    let tag := box.take 16
    let ct := box.drop 16
    if macBytes key nonce ct = tag then
      some (ct.zipWith Nat.xor (keystream key nonce ct.length))
    else none

/-! ### key.go -/

/-- `EncryptBytes(key, b)` from key.go: draws a fresh 24-byte nonce from the
random stream `rnd` and returns `nonce || secretbox.Seal(...)` (the Go code
passes `nonce[:]` as the output prefix). -/
def EncryptBytes (key : List Nat) (rnd : Nat → Nat) (b : List Nat) : List Nat :=
  let nonce := (List.range 24).map rnd
  nonce ++ secretboxSeal key nonce b

/-- `DecryptBytes(key, b)` from key.go: rejects inputs shorter than the
24-byte nonce, splits off the nonce, and opens the box; any failure is
`ErrInvalidCipher`. -/
def DecryptBytes (key : List Nat) (b : List Nat) : Except GoError (List Nat) :=
  if b.length < 24 then .error .errInvalidCipher
  else
    match secretboxOpen key (b.take 24) (b.drop 24) with
    | some out => .ok out
    | none => .error .errInvalidCipher

/-! ### base64url codec (model of encoding/base64 URLEncoding)

Standard padded base64 over the URL-safe alphabet, as used by
`base64.URLEncoding.EncodeToString` / `DecodeString`. 61 is the byte of the
padding character. The decoder, like Go's default (non-strict) decoder,
does not insist that unused trailing bits be zero, and rejects padding
anywhere but the final quantum and bytes outside the alphabet. -/

/-- Alphabet byte for a 6-bit value (URL-safe alphabet `A-Za-z0-9-_`). -/
def b64CharOf (v : Nat) : Nat :=
  if v < 26 then 65 + v
  else if v < 52 then 97 + (v - 26)
  else if v < 62 then 48 + (v - 52)
  else if v = 62 then 45
  else 95

/-- Six-bit value of an alphabet byte; `none` for bytes outside the
alphabet (including the padding byte 61). -/
def b64ValOf (c : Nat) : Option Nat :=
  if 65 ≤ c ∧ c ≤ 90 then some (c - 65)
  else if 97 ≤ c ∧ c ≤ 122 then some (c - 97 + 26)
  else if 48 ≤ c ∧ c ≤ 57 then some (c - 48 + 52)
  else if c = 45 then some 62
  else if c = 95 then some 63
  else none

/-- Model of `base64.URLEncoding.EncodeToString`. -/
def base64urlEncode : List Nat → List Nat
  | [] => []
  | [b0] => [b64CharOf (b0 % 256 / 4), b64CharOf (b0 % 256 % 4 * 16), 61, 61]
  | [b0, b1] => [b64CharOf (b0 % 256 / 4),
      b64CharOf (b0 % 256 % 4 * 16 + b1 % 256 / 16),
      b64CharOf (b1 % 256 % 16 * 4), 61]
  | b0 :: b1 :: b2 :: rest =>
    b64CharOf (b0 % 256 / 4) ::
    b64CharOf (b0 % 256 % 4 * 16 + b1 % 256 / 16) ::
    b64CharOf (b1 % 256 % 16 * 4 + b2 % 256 / 64) ::
    b64CharOf (b2 % 256 % 64) ::
    base64urlEncode rest

/-- Model of `base64.URLEncoding.DecodeString`. -/
def base64urlDecode : List Nat → Option (List Nat)
  | [] => some []
  | c1 :: c2 :: c3 :: c4 :: rest =>
    if rest = [] ∧ c3 = 61 ∧ c4 = 61 then
      (b64ValOf c1).bind fun v1 =>
      (b64ValOf c2).bind fun v2 =>
      some [v1 * 4 + v2 / 16]
    else if rest = [] ∧ c4 = 61 then
      (b64ValOf c1).bind fun v1 =>
      (b64ValOf c2).bind fun v2 =>
      (b64ValOf c3).bind fun v3 =>
      some [v1 * 4 + v2 / 16, v2 % 16 * 16 + v3 / 4]
    else
      (b64ValOf c1).bind fun v1 =>
      (b64ValOf c2).bind fun v2 =>
      (b64ValOf c3).bind fun v3 =>
      (b64ValOf c4).bind fun v4 =>
      (base64urlDecode rest).bind fun tl =>
      some ((v1 * 4 + v2 / 16) :: (v2 % 16 * 16 + v3 / 4) :: (v3 % 4 * 64 + v4) :: tl)
  | _ => none

/-! ### Big-endian 64-bit helpers (encoding/binary) and int64/uint64 casts -/

/-- Model of Go's `uint64(n)` applied to an `int64` value. -/
def u64OfInt (n : Int) : Nat := (n % 18446744073709551616).toNat

/-- Model of Go's `int64(u)` applied to a `uint64` value. -/
def i64OfU64 (u : Nat) : Int :=
  if u < 9223372036854775808 then (u : Int) else (u : Int) - 18446744073709551616

/-- The eight bytes written by `binary.BigEndian.PutUint64` for value `v`. -/
def beBytes64 (v : Nat) : List Nat :=
  [v / 2 ^ 56 % 256, v / 2 ^ 48 % 256, v / 2 ^ 40 % 256, v / 2 ^ 32 % 256,
   v / 2 ^ 24 % 256, v / 2 ^ 16 % 256, v / 2 ^ 8 % 256, v % 256]

/-- Model of `binary.BigEndian.Uint64` on the first eight bytes; the Go
function panics for slices shorter than eight bytes, which callers guard
for explicitly (see `Handler.Cookie`). Bytes are machine bytes, i.e. values
mod 256. -/
def beUint64 (b : List Nat) : Nat :=
  match b with
  | b0 :: b1 :: b2 :: b3 :: b4 :: b5 :: b6 :: b7 :: _ =>
    b0 % 256 * 2 ^ 56 + b1 % 256 * 2 ^ 48 + b2 % 256 * 2 ^ 40 + b3 % 256 * 2 ^ 32 +
    b4 % 256 * 2 ^ 24 + b5 % 256 * 2 ^ 16 + b6 % 256 * 2 ^ 8 + b7 % 256
  | _ => 0

/-! ### Data model: Profile, Handler, Request, HTTP response actions -/

/-- The `Profile` struct of userinfo.go. `ProfileURL` stands for the Go
field named `Profile` (kept apart from the structure's own name). -/
structure Profile where
  ID : List Nat
  Sub : List Nat
  Name : List Nat
  GivenName : List Nat
  FamilyName : List Nat
  ProfileURL : List Nat
  Picture : List Nat
  Email : List Nat
  EmailVerified : Bool
  Gender : List Nat
  Locale : List Nat
  deriving DecidableEq, Repr

/-- The fields of `http.Cookie` that the package sets. `Expires` is Unix
seconds (`time.Unix(0, 0)` is `0`, `now.Add(24 * time.Hour)` is
`now + 86400`). -/
structure HttpCookie where
  Name : List Nat
  Value : List Nat
  Expires : Int
  Path : List Nat
  Domain : List Nat
  Secure : Bool
  HttpOnly : Bool
  deriving DecidableEq, Repr

/-- Observable writes a handler makes to its `http.ResponseWriter`. -/
inductive Action where
  | setCookie (c : HttpCookie)
  | redirect (url : List Nat) (code : Nat)
  | httpError (msg : List Nat) (code : Nat)
  deriving DecidableEq, Repr

/-- The `Handler` struct of the package. The embedded `oauth2.Config` is
represented by the one method the handlers call on it directly,
`AuthCodeURL` (an external collaborator building the provider URL from the
state string); the code exchange it also provides is an outbound call whose
outcome is passed to `HandleRedirect` separately. Function-typed optional
callbacks are `Option`s, `none` being Go's nil. -/
structure Handler where
  StateKey : List Nat
  CookieKey : List Nat
  Domain : List Nat
  CookieName : List Nat
  Service : List Nat
  UserInfo : List Nat
  WriteProfile : Option (Profile → Option GoError)
  FinalizeLogin : Option (List Action)
  ACL : Option (Profile → Option GoError)
  AuthCodeURL : List Nat → List Nat

/-- The parts of `http.Request` the handlers consult: the request URL, the
cookie header (name/value pairs), and the `state` and `code` form values. -/
structure Request where
  URL : List Nat
  Cookies : List (List Nat × List Nat)
  FormState : List Nat
  FormCode : List Nat

/-- `r.Cookie(name)`: first cookie with the given name, if any. -/
def Request.cookieValue (r : Request) (name : List Nat) : Option (List Nat) :=
  (r.Cookies.find? (fun c => c.1 == name)).map (·.2)

/-- Result of `Handler.Cookie`: Go's `([]byte, error)` pair plus the
possibility of a runtime panic. -/
inductive ReadResult where
  | ok (b : List Nat)
  | err (e : GoError)
  | panicked (p : GoPanic)
  deriving DecidableEq, Repr

/-! ### Cookie codec and handlers (part_001, part_000) -/

/-- `cookieName` (part_001 lines 18–23): the `CookieName` field, defaulting
to "session" when empty. -/
def Handler.cookieName (h : Handler) : List Nat :=
  if h.CookieName = [] then strBytes "session" else h.CookieName

/-- Go's `copy(dst[i:], src)`: overwrites at most `len(dst)-i` bytes of
`dst` from offset `i` with the leading bytes of `src`. -/
def goCopy (dst : List Nat) (i : Nat) (src : List Nat) : List Nat :=
  dst.take i ++ src.take (dst.length - i) ++
    dst.drop (i + min src.length (dst.length - i))

/-- The pre-encryption plaintext built by `setCookie` (part_001 lines
26–37): an all-zero buffer of length `len(in)+8+len(dcheck)`, the
big-endian issue time written over bytes 0–7 (`binary.BigEndian.PutUint64`),
the domain-plus-space tag copied at offset 8, and the payload after it. -/
def Handler.setCookieTB (h : Handler) (now : Int) (input : List Nat) : List Nat :=
  let dcheck := h.Domain ++ [32]
  let tb0 := List.replicate (input.length + 8 + dcheck.length) 0
  let tb1 := goCopy tb0 0 (beBytes64 (u64OfInt now))
  let tb2 := goCopy tb1 8 dcheck
  goCopy tb2 (8 + dcheck.length) input

/-- `setCookie` (part_001 lines 25–53): seal the composite plaintext under
CookieKey, base64url-encode it, and set the session cookie with a
browser-visible expiry 24 hours out. The encryption-failure path (a
`crypto/rand` read error answered with a 500) cannot occur in the model,
where randomness is an infallible stream. -/
def Handler.setCookie (h : Handler) (now : Int) (rnd : Nat → Nat)
    (input : List Nat) : Action :=
  .setCookie {
    Name := h.cookieName
    Value := base64urlEncode (EncryptBytes h.CookieKey rnd (h.setCookieTB now input))
    Expires := now + 86400
    Path := strBytes "/"
    Domain := h.Domain
    Secure := true
    HttpOnly := true }

/-- `Cookie` (part_001 lines 55–83): look the session cookie up,
base64url-decode it, decrypt under CookieKey, reject timestamps more than
24 hours old, compare the domain tag (the first space-separated segment),
and join the remaining segments back with spaces. `binary.BigEndian.Uint64`
panics (index out of range) when the decrypted payload is shorter than
eight bytes; the `b[8:]` reslice after it is then in bounds. -/
def Handler.Cookie (h : Handler) (r : Request) (now : Int) : ReadResult :=
  match r.cookieValue h.cookieName with
  | none => .err .errNoCookie
  | some value =>
    match base64urlDecode value with
    | none => .err .errBase64
    | some decoded =>
      match DecryptBytes h.CookieKey decoded with
      | .error e => .err e
      | .ok b =>
        if b.length < 8 then .panicked .indexOutOfRange
        else
          let ts := beUint64 b
          if now - i64OfU64 ts > 86400 then .err .errCookieExpired
          else
            let bb := List.splitOn 32 (b.drop 8)
            if ¬ (bb.headI = h.Domain) then .err .errCookieDomain
            else .ok (List.intercalate [32] bb.tail)

/-- `HandleLogoff` (part_000 lines 136–146): set a clearing cookie — empty
value, epoch expiry — named after the raw `CookieName` field. -/
def Handler.HandleLogoff (h : Handler) : List Action :=
  [.setCookie {
    Name := h.CookieName
    Value := []
    Expires := 0
    Path := strBytes "/"
    Domain := h.Domain
    Secure := true
    HttpOnly := true }]

/-- `finalizeLogin` (part_000 lines 94–100): the optional callback,
defaulting to a 307 redirect to "/". A custom callback is opaque; it is
represented by the actions it writes. -/
def Handler.finalizeLogin (h : Handler) : List Action :=
  match h.FinalizeLogin with
  | some acts => acts
  | none => [.redirect (strBytes "/") 307]

/-- `HandleLogin` (part_000 lines 108–133): a good cookie finalizes the
login; a bad-but-present cookie is cleared first; then the request URL is
sealed under StateKey into the `state` parameter of the provider redirect.
The `EncryptBytes` error path (500) cannot occur in the model. -/
def Handler.HandleLogin (h : Handler) (r : Request) (now : Int)
    (rnd : Nat → Nat) : Except GoPanic (List Action) :=
  match h.Cookie r now with
  | .panicked p => .error p
  | .ok _ => .ok h.finalizeLogin
  | .err e =>
    let cleanup := if e ≠ .errNoCookie then h.HandleLogoff else []
    let state := EncryptBytes h.StateKey rnd r.URL
    let url := h.AuthCodeURL (base64urlEncode state)
    .ok (cleanup ++ [.redirect url 307])

/-- `writeProfile` (userinfo.go lines 11–16): nil callback is a no-op,
otherwise delegate. Only the collaborator's error result is modelled; its
own writes to the response are outside the embedding. -/
def Handler.writeProfile (h : Handler) (p : Profile) : Option GoError :=
  match h.WriteProfile with
  | none => none
  | some f => f p

/-- Modelled from the spec: the `acl` helper that `HandleRedirect` calls on
line 177 is absent from the provided sources; spec §6 specifies the ACL
collaborator as `Check(Profile) -> error|nil; absence means allow-all`,
mirroring the other optional-callback helpers. -/
def Handler.acl (h : Handler) (p : Profile) : Option GoError :=
  match h.ACL with
  | none => none
  | some f => f p

/-- Outcomes of the two outbound provider calls `HandleRedirect` makes: the
authorization-code exchange (`h.Exchange` of the embedded oauth2.Config)
and the user-info fetch (`GetUserInfo`, an HTTPS GET). The token passed
between them is opaque to the rest of the flow. -/
structure ProviderOutcome where
  exchange : Option GoError
  userinfo : Except GoError Profile

/-- `HandleRedirect` (part_000 lines 151–190): decode and decrypt the state
(401 on failure), exchange the code (401), fetch the profile (500), apply
the ACL check, compose the service-qualified subject ID, invoke the
write-back callback discarding its error (line 183), set the session
cookie, and redirect to the recovered origin URL.

Line 177 reads `if err != h.acl(up)`, where `err` still holds the nil
error of the successful `GetUserInfo` call: when the ACL rejects, the
branch is taken and `err.Error()` dereferences the nil interface. -/
def Handler.HandleRedirect (h : Handler) (r : Request) (o : ProviderOutcome)
    (now : Int) (rnd : Nat → Nat) : Except GoPanic (List Action) :=
  match base64urlDecode r.FormState with
  | none => .ok [.httpError (goErrorMessage .errBase64) 401]
  | some rawState =>
    match DecryptBytes h.StateKey rawState with
    | .error e => .ok [.httpError (goErrorMessage e) 401]
    | .ok home =>
      match o.exchange with
      | some e => .ok [.httpError (goErrorMessage e) 401]
      | none =>
        match o.userinfo with
        | .error e =>
          .ok [.httpError (strBytes "userinfo request error: " ++ goErrorMessage e) 500]
        | .ok up =>
          if (none : Option GoError) ≠ h.acl up then
            match goErrError none with
            | .error p => .error p
            | .ok msg => .ok [.httpError (strBytes "ACL error: " ++ msg) 500]
          else
            let up2 := { up with ID := h.Service ++ strBytes "_" ++ up.Sub }
            let _ := h.writeProfile up2
            .ok [h.setCookie now rnd up2.ID, .redirect home 307]

/-! ### Structural lemmas about the cookie plaintext and its parsing -/


/-! ### Concrete fixtures (used by witnesses and counterexamples) -/

/-- A deterministic byte stream standing in for crypto/rand. -/
def rnd0 : Nat → Nat := fun i => (i * 7 + 3) % 256

/-- A 32-byte cookie key. -/
def keyA : List Nat := (List.range 32).map fun i => (i * 11 + 1) % 256

/-- A 32-byte state key. -/
def keyB : List Nat := (List.range 32).map fun i => (i * 13 + 5) % 256

/-- A handler with every mandatory field set and the optional callbacks
nil; `CookieName` is empty, so issuance uses the "session" default. -/
def baseHandler : Handler where
  StateKey := keyB
  CookieKey := keyA
  Domain := strBytes "a.example"
  CookieName := []
  Service := strBytes "google"
  UserInfo := strBytes "https://openidconnect.googleapis.com/v1/userinfo"
  WriteProfile := none
  FinalizeLogin := none
  ACL := none
  AuthCodeURL := fun st => strBytes "https://provider.example/auth?state=" ++ st

/-- A profile as delivered by the user-info endpoint (`ID` unset; the
redirect handler composes it). -/
def profU : Profile where
  ID := []
  Sub := strBytes "u123"
  Name := strBytes "U N"
  GivenName := strBytes "U"
  FamilyName := strBytes "N"
  ProfileURL := []
  Picture := []
  Email := strBytes "u@a.example"
  EmailVerified := true
  Gender := []
  Locale := strBytes "en"

/-- A request carrying one session cookie with the given value. -/
def reqWithCookie (v : List Nat) : Request where
  URL := strBytes "/protected"
  Cookies := [(strBytes "session", v)]
  FormState := []
  FormCode := []

/-- A request with no cookies. -/
def reqNoCookie : Request where
  URL := strBytes "/protected"
  Cookies := []
  FormState := []
  FormCode := []

/-- A provider-callback request carrying the given state value. -/
def reqCallback (st : List Nat) : Request where
  URL := strBytes "/oauth2redirect"
  Cookies := []
  FormState := st
  FormCode := strBytes "authcode"

/-- Provider calls both succeeding, delivering the given profile. -/
def okOutcome (p : Profile) : ProviderOutcome where
  exchange := none
  userinfo := .ok p

/-- The cookie value issued for a given plaintext under the fixture cookie
key and nonce stream. -/
def mkCookieValue (tb : List Nat) : List Nat :=
  base64urlEncode (EncryptBytes keyA rnd0 tb)

/-- An issuance-shaped payload for the fixture domain. -/
def tbGood : List Nat :=
  beBytes64 1000 ++ strBytes "a.example" ++ 32 :: strBytes "google_u123"

/-- An issuance-shaped payload tagged with a different domain. -/
def tbBadDom : List Nat :=
  beBytes64 1000 ++ strBytes "b.example" ++ 32 :: strBytes "google_u123"

/-- The fixture handler with an ACL collaborator that rejects everyone. -/
def aclDeny : Handler :=
  { baseHandler with ACL := some fun _ => some (.errMsg (strBytes "denied")) }

/-- The fixture handler with a write-back collaborator that always fails. -/
def hWriteFail : Handler :=
  { baseHandler with WriteProfile := some fun _ => some (.errMsg (strBytes "db down")) }

/-- A valid state value for the fixture state key, carrying "/dashboard". -/
def stateValue : List Nat :=
  base64urlEncode (EncryptBytes keyB rnd0 (strBytes "/dashboard"))

/-- The name of the cookie written by a Set-Cookie action. -/
def actionCookieName : Action → List Nat
  | .setCookie c => c.Name
  | _ => []

/-- Whether a handler outcome wrote a Set-Cookie header. -/
def issuesCookie : Except GoPanic (List Action) → Bool
  | .ok acts => acts.any fun a => match a with | .setCookie _ => true | _ => false
  | .error _ => false

/-! ### Proof development -/

/-! ### Round-trip lemmas for the cipher -/

theorem zipWith_xor_cancel : ∀ (l ks : List Nat),
    List.zipWith Nat.xor (List.zipWith Nat.xor l ks) ks = l.take ks.length
  | [], _ => by simp
  | _ :: _, [] => by simp
  | a :: l, k :: ks => by
    simp only [List.zipWith, List.take]
    rw [zipWith_xor_cancel l ks,
      show Nat.xor (Nat.xor a k) k = a from Nat.xor_cancel_right k a]

theorem length_keystream (key nonce : List Nat) (n : Nat) :
    (keystream key nonce n).length = n := by
  simp [keystream]

theorem length_macBytes (key nonce ct : List Nat) :
    (macBytes key nonce ct).length = 16 := by
  simp [macBytes]

theorem length_zipWith_keystream (key nonce l : List Nat) :
    (l.zipWith Nat.xor (keystream key nonce l.length)).length = l.length := by
  simp [List.length_zipWith, length_keystream]

theorem secretboxOpen_seal (key nonce msg : List Nat) :
    secretboxOpen key nonce (secretboxSeal key nonce msg) = some msg := by
  unfold secretboxSeal secretboxOpen
  simp only
  rw [List.take_left' (length_macBytes key nonce _),
    List.drop_left' (length_macBytes key nonce _)]
  rw [if_neg, if_pos rfl]
  · rw [length_zipWith_keystream, zipWith_xor_cancel, length_keystream,
      List.take_of_length_le (Nat.le_refl _)]
  · simp only [List.length_append, length_macBytes]
    omega

theorem decrypt_encrypt (key : List Nat) (rnd : Nat → Nat) (b : List Nat) :
    DecryptBytes key (EncryptBytes key rnd b) = .ok b := by
  unfold EncryptBytes DecryptBytes
  have hn : ((List.range 24).map rnd).length = 24 := by simp
  rw [List.take_left' hn, List.drop_left' hn, secretboxOpen_seal]
  rw [if_neg]
  simp only [List.length_append, hn]
  omega

theorem b64ValOf_charOf : ∀ v : Nat, v < 64 → b64ValOf (b64CharOf v) = some v := by
  decide

theorem b64CharOf_ne_61 (v : Nat) : b64CharOf v ≠ 61 := by
  unfold b64CharOf
  split
  · omega
  split
  · omega
  split
  · omega
  split
  · omega
  · omega

theorem base64url_roundtrip :
    ∀ b : List Nat, (∀ x ∈ b, x < 256) →
      base64urlDecode (base64urlEncode b) = some b
  | [], _ => rfl
  | [b0], h => by
    have h0 : b0 < 256 := h b0 (by simp)
    show base64urlDecode [b64CharOf (b0 % 256 / 4), b64CharOf (b0 % 256 % 4 * 16), 61, 61]
      = some [b0]
    rw [base64urlDecode, if_pos ⟨rfl, rfl, rfl⟩,
      b64ValOf_charOf _ (by omega), b64ValOf_charOf _ (by omega)]
    simp only [Option.some_bind, Option.some.injEq, List.cons.injEq, and_true]
    omega
  | [b0, b1], h => by
    have h0 : b0 < 256 := h b0 (by simp)
    have h1 : b1 < 256 := h b1 (by simp)
    show base64urlDecode [b64CharOf (b0 % 256 / 4),
        b64CharOf (b0 % 256 % 4 * 16 + b1 % 256 / 16),
        b64CharOf (b1 % 256 % 16 * 4), 61] = some [b0, b1]
    rw [base64urlDecode, if_neg (by simp [b64CharOf_ne_61]), if_pos ⟨rfl, rfl⟩,
      b64ValOf_charOf _ (by omega), b64ValOf_charOf _ (by omega),
      b64ValOf_charOf _ (by omega)]
    simp only [Option.some_bind, Option.some.injEq, List.cons.injEq, and_true]
    omega
  | b0 :: b1 :: b2 :: rest, h => by
    have h0 : b0 < 256 := h b0 (by simp)
    have h1 : b1 < 256 := h b1 (by simp)
    have h2 : b2 < 256 := h b2 (by simp)
    have hrec := base64url_roundtrip rest (fun x hx => h x (by simp [hx]))
    show base64urlDecode (b64CharOf (b0 % 256 / 4) ::
        b64CharOf (b0 % 256 % 4 * 16 + b1 % 256 / 16) ::
        b64CharOf (b1 % 256 % 16 * 4 + b2 % 256 / 64) ::
        b64CharOf (b2 % 256 % 64) :: base64urlEncode rest)
      = some (b0 :: b1 :: b2 :: rest)
    rw [base64urlDecode,
      if_neg (by simp [b64CharOf_ne_61]), if_neg (by simp [b64CharOf_ne_61]),
      b64ValOf_charOf _ (by omega), b64ValOf_charOf _ (by omega),
      b64ValOf_charOf _ (by omega), b64ValOf_charOf _ (by omega), hrec]
    simp only [Option.some_bind, Option.some.injEq, List.cons.injEq, and_true]
    refine ⟨by omega, by omega, by omega⟩

theorem length_beBytes64 (v : Nat) : (beBytes64 v).length = 8 := by
  simp [beBytes64]

theorem beUint64_beBytes64 (v : Nat) (rest : List Nat) :
    beUint64 (beBytes64 v ++ rest) = v % 2 ^ 64 := by
  have h : ∀ k : Nat, v % 2 ^ (k + 8) = v / 2 ^ k % 256 * 2 ^ k + v % 2 ^ k := by
    intro k
    rw [pow_add, Nat.mod_mul, Nat.add_comm, Nat.mul_comm]
    norm_num
  simp only [beBytes64, List.cons_append, List.nil_append, beUint64]
  rw [show (2:Nat) ^ 64 = 2 ^ (56 + 8) from by norm_num, h 56,
    show (2:Nat) ^ 56 = 2 ^ (48 + 8) from by norm_num, h 48,
    show (2:Nat) ^ 48 = 2 ^ (40 + 8) from by norm_num, h 40,
    show (2:Nat) ^ 40 = 2 ^ (32 + 8) from by norm_num, h 32,
    show (2:Nat) ^ 32 = 2 ^ (24 + 8) from by norm_num, h 24,
    show (2:Nat) ^ 24 = 2 ^ (16 + 8) from by norm_num, h 16,
    show (2:Nat) ^ 16 = 2 ^ (8 + 8) from by norm_num, h 8,
    show (2:Nat) ^ 8 = 256 from by norm_num]
  simp only [dvd_refl, Nat.mod_mod_of_dvd]
  ring

theorem i64OfU64_u64OfInt (n : Int)
    (h1 : -9223372036854775808 ≤ n) (h2 : n < 9223372036854775808) :
    i64OfU64 (u64OfInt n) = n := by
  unfold u64OfInt i64OfU64
  split <;> omega

theorem u64OfInt_lt (n : Int) : u64OfInt n < 2 ^ 64 := by
  unfold u64OfInt
  omega

theorem goCopy_append (a b src : List Nat) (hsrc : src.length ≤ b.length) :
    goCopy (a ++ b) a.length src = a ++ (src ++ b.drop src.length) := by
  unfold goCopy
  rw [List.take_left, List.length_append]
  have h1 : a.length + b.length - a.length = b.length := by omega
  rw [h1, List.take_of_length_le hsrc, min_eq_left hsrc, List.drop_append]
  simp [List.append_assoc]

/-- The buffer built by `setCookie` is exactly the big-endian time, the
domain, one space byte, and the payload, in that order. -/
theorem setCookieTB_eq (h : Handler) (now : Int) (input : List Nat) :
    h.setCookieTB now input =
      beBytes64 (u64OfInt now) ++ h.Domain ++ 32 :: input := by
  unfold Handler.setCookieTB
  simp only
  have h0 : List.replicate (input.length + 8 + (h.Domain ++ [32]).length) 0 =
      ([] : List Nat) ++ List.replicate (input.length + 8 + (h.Domain ++ [32]).length) 0 := by
    simp
  rw [h0, show (0 : Nat) = ([] : List Nat).length from rfl, goCopy_append]
  · simp only [List.nil_append, length_beBytes64, List.drop_replicate]
    have h8 : (8 : Nat) = (beBytes64 (u64OfInt now)).length := (length_beBytes64 _).symm
    rw [h8, goCopy_append]
    · rw [List.drop_replicate]
      have hd : (beBytes64 (u64OfInt now)).length + (h.Domain ++ [32]).length =
          (beBytes64 (u64OfInt now) ++ (h.Domain ++ [32])).length := by
        simp
      rw [hd, ← List.append_assoc, goCopy_append]
      · simp only [List.append_assoc, List.cons_append, List.nil_append,
          List.drop_replicate]
        have hz : input.length + (beBytes64 (u64OfInt now)).length + (h.Domain.length + 1) -
            (beBytes64 (u64OfInt now)).length - (h.Domain.length + 1) - input.length = 0 := by
          omega
        simp [hz]
      · simp only [List.length_replicate, List.length_append, List.length_cons,
          length_beBytes64]
        omega
    · simp only [List.length_replicate, List.length_append, length_beBytes64]
      omega
  · simp only [List.length_replicate, length_beBytes64, List.length_append]
    omega

theorem setCookieTB_length (h : Handler) (now : Int) (input : List Nat) :
    (h.setCookieTB now input).length = input.length + 9 + h.Domain.length := by
  rw [setCookieTB_eq]
  simp only [List.length_append, List.length_cons, length_beBytes64]
  omega

theorem setCookieTB_bytes_lt (h : Handler) (now : Int) (input : List Nat)
    (hd : ∀ x ∈ h.Domain, x < 256) (hi : ∀ x ∈ input, x < 256) :
    ∀ x ∈ h.setCookieTB now input, x < 256 := by
  rw [setCookieTB_eq]
  intro x hx
  rcases List.mem_append.1 hx with hx | hx
  · rcases List.mem_append.1 hx with hx | hx
    · simp only [beBytes64, List.mem_cons, List.not_mem_nil, or_false] at hx
      rcases hx with rfl | rfl | rfl | rfl | rfl | rfl | rfl | rfl <;> omega
    · exact hd x hx
  · rcases List.mem_cons.1 hx with rfl | hx
    · omega
    · exact hi x hx

theorem zipWith_xor_bytes_lt (l m : List Nat)
    (hl : ∀ x ∈ l, x < 256) (hm : ∀ x ∈ m, x < 256) :
    ∀ x ∈ List.zipWith Nat.xor l m, x < 256 := by
  induction l generalizing m with
  | nil => simp
  | cons a l ih =>
    cases m with
    | nil => simp
    | cons b m =>
      intro x hx
      rcases List.mem_cons.1 hx with rfl | hx
      · have ha : a < 2 ^ 8 := hl a (by simp)
        have hb : b < 2 ^ 8 := hm b (by simp)
        exact Nat.xor_lt_two_pow ha hb
      · exact ih m (fun y hy => hl y (by simp [hy]))
          (fun y hy => hm y (by simp [hy])) x hx

/-- Every byte of a sealed token is a byte value, provided the nonce stream
and the plaintext deliver byte values. -/
theorem encryptBytes_bytes_lt (key : List Nat) (rnd : Nat → Nat) (b : List Nat)
    (hr : ∀ i, rnd i < 256) (hb : ∀ x ∈ b, x < 256) :
    ∀ x ∈ EncryptBytes key rnd b, x < 256 := by
  unfold EncryptBytes secretboxSeal
  intro x hx
  simp only [List.append_assoc, List.mem_append] at hx
  rcases hx with hx | hx | hx
  · rcases List.mem_map.1 hx with ⟨i, _, rfl⟩
    exact hr i
  · rcases List.mem_map.1 hx with ⟨i, _, rfl⟩
    exact Nat.mod_lt _ (by omega)
  · refine zipWith_xor_bytes_lt _ _ hb ?_ x hx
    intro y hy
    rcases List.mem_map.1 hy with ⟨i, _, rfl⟩
    exact Nat.mod_lt _ (by omega)

/-- `bytes.Split` on the space byte peels off a space-free prefix as the
first segment. -/
theorem splitOn_space_first (tag rest : List Nat) (htag : 32 ∉ tag) :
    List.splitOn 32 (tag ++ 32 :: rest) = tag :: List.splitOn 32 rest := by
  apply List.splitOnP_first
  · intro x hx
    simp only [beq_iff_eq]
    intro h
    exact htag (h ▸ hx)
  · simp

/-- `bytes.Join` with a space undoes `bytes.Split` on the space byte. -/
theorem intercalate_splitOn_space (l : List Nat) :
    List.intercalate [32] (List.splitOn 32 l) = l :=
  List.intercalate_splitOn l 32

/-! ### Claims -/

/-- C5: for every byte payload and every 256-bit key, decrypting the sealed
token produced by encrypting the payload under a key, with the same key,
returns exactly the payload. -/
theorem C5_encrypt_decrypt_roundtrip (key : List Nat) (rnd : Nat → Nat)
    (p : List Nat) (_hkey : key.length = 32) :
    DecryptBytes key (EncryptBytes key rnd p) = .ok p :=
  decrypt_encrypt key rnd p

theorem C5_encrypt_decrypt_roundtrip_witness :
    keyA.length = 32 ∧
      DecryptBytes keyA (EncryptBytes keyA rnd0 [104, 105, 33]) = .ok [104, 105, 33] :=
  ⟨by decide, C5_encrypt_decrypt_roundtrip keyA rnd0 [104, 105, 33] (by decide)⟩

/-- C9: for every key and input, decryption returns the invalid-cipher
error when the input is shorter than the 24-byte nonce or when the
authentication-tag verification fails, and never returns a plaintext in
those cases. -/
theorem C9_decrypt_fail_closed (key b : List Nat)
    (hfail : b.length < 24 ∨ secretboxOpen key (b.take 24) (b.drop 24) = none) :
    DecryptBytes key b = .error .errInvalidCipher ∧
      ∀ out, DecryptBytes key b ≠ .ok out := by
  have hmain : DecryptBytes key b = .error .errInvalidCipher := by
    unfold DecryptBytes
    rcases hfail with hshort | hopen
    · rw [if_pos hshort]
    · by_cases hlen : b.length < 24
      · rw [if_pos hlen]
      · rw [if_neg hlen, hopen]
  refine ⟨hmain, fun out h => ?_⟩
  rw [hmain] at h
  exact Except.noConfusion h

set_option maxRecDepth 40000 in
theorem C9_decrypt_fail_closed_witness :
    (([] : List Nat).length < 24 ∧
      DecryptBytes keyA [] = .error .errInvalidCipher ∧
      ∀ out, DecryptBytes keyA [] ≠ .ok out) ∧
    (secretboxOpen keyB ((EncryptBytes keyA rnd0 [7, 8]).take 24)
        ((EncryptBytes keyA rnd0 [7, 8]).drop 24) = none ∧
      DecryptBytes keyB (EncryptBytes keyA rnd0 [7, 8]) = .error .errInvalidCipher) :=
  ⟨⟨by decide, C9_decrypt_fail_closed keyA [] (Or.inl (by decide))⟩,
   ⟨by decide,
    (C9_decrypt_fail_closed keyB (EncryptBytes keyA rnd0 [7, 8])
      (Or.inr (by decide))).1⟩⟩

/-- C6: the plaintext sealed at cookie issuance is exactly the 8-byte
big-endian unsigned issue time in Unix seconds, then the configured
domain's bytes, one space byte, and the subject-identity bytes; the sealed
result is base64url-encoded into the cookie value, whose browser-visible
expiry is 24 hours after issuance. -/
theorem C6_issued_cookie_shape (h : Handler) (now : Int) (rnd : Nat → Nat)
    (input : List Nat) :
    h.setCookie now rnd input = .setCookie {
      Name := h.cookieName
      Value := base64urlEncode (EncryptBytes h.CookieKey rnd
        (beBytes64 (u64OfInt now) ++ h.Domain ++ 32 :: input))
      Expires := now + 86400
      Path := strBytes "/"
      Domain := h.Domain
      Secure := true
      HttpOnly := true } := by
  unfold Handler.setCookie
  rw [setCookieTB_eq]

/-- C10: every issuance plaintext is at least nine bytes longer than the
configured domain, so when a presented cookie value decrypts to a payload
produced by issuance, the unguarded eight-byte timestamp read and the
slice from offset 8 in cookie reading are in bounds and cannot panic. -/
theorem C10_issuance_read_no_panic (h : Handler) (r : Request)
    (nowI nowR : Int) (input v decoded : List Nat)
    (hlook : r.cookieValue h.cookieName = some v)
    (hdec : base64urlDecode v = some decoded)
    (hopen : DecryptBytes h.CookieKey decoded = .ok (h.setCookieTB nowI input)) :
    (h.setCookieTB nowI input).length ≥ 9 + h.Domain.length ∧
      ∀ p, h.Cookie r nowR ≠ .panicked p := by
  have hlen := setCookieTB_length h nowI input
  refine ⟨by omega, fun p => ?_⟩
  unfold Handler.Cookie
  simp only [hlook, hdec, hopen]
  rw [if_neg (by omega)]
  split
  · intro hcon
    exact ReadResult.noConfusion hcon
  split
  · intro hcon
    exact ReadResult.noConfusion hcon
  · intro hcon
    exact ReadResult.noConfusion hcon

set_option maxRecDepth 100000 in
theorem C10_issuance_read_no_panic_witness :
    ((baseHandler.setCookieTB 1000000 (strBytes "google_u123")).length ≥
        9 + baseHandler.Domain.length) ∧
      ∀ p, baseHandler.Cookie
          (reqWithCookie (mkCookieValue (baseHandler.setCookieTB 1000000 (strBytes "google_u123"))))
          1000500 ≠ .panicked p :=
  C10_issuance_read_no_panic baseHandler
    (reqWithCookie (mkCookieValue (baseHandler.setCookieTB 1000000 (strBytes "google_u123"))))
    1000000 1000500 (strBytes "google_u123")
    (mkCookieValue (baseHandler.setCookieTB 1000000 (strBytes "google_u123")))
    (EncryptBytes keyA rnd0 (baseHandler.setCookieTB 1000000 (strBytes "google_u123")))
    (by decide) (by decide) (by decide)

/-- Reading a cookie that decodes and decrypts to a payload starting with
an eight-byte big-endian timestamp reduces to the expiry check, the domain
check, and the join-back, in that order. -/
theorem cookie_read_reduce (h : Handler) (r : Request) (now : Int)
    (v decoded rest : List Nat) (ts : Nat)
    (hlook : r.cookieValue h.cookieName = some v)
    (hdec : base64urlDecode v = some decoded)
    (hopen : DecryptBytes h.CookieKey decoded = .ok (beBytes64 ts ++ rest))
    (hts : ts < 2 ^ 64) :
    h.Cookie r now =
      if now - i64OfU64 ts > 86400 then .err .errCookieExpired
      else if ¬((List.splitOn 32 rest).headI = h.Domain) then .err .errCookieDomain
      else .ok (List.intercalate [32] (List.splitOn 32 rest).tail) := by
  unfold Handler.Cookie
  simp only [hlook, hdec, hopen]
  rw [if_neg (by simp only [List.length_append, length_beBytes64]; omega)]
  rw [beUint64_beBytes64, Nat.mod_eq_of_lt hts, List.drop_left' (length_beBytes64 ts)]

/-- C4: reading a cookie value that opens under CookieKey returns the
expired error when the embedded timestamp is more than 24 hours before the
current time (exactly 24 hours old or newer passes), then the domain error
when the embedded domain tag differs from the configured domain, and
otherwise the remaining subject-identity bytes. -/
theorem C4_read_checks (h : Handler) (r : Request) (now : Int)
    (v decoded tag subject : List Nat) (ts : Nat)
    (hlook : r.cookieValue h.cookieName = some v)
    (hdec : base64urlDecode v = some decoded)
    (hopen : DecryptBytes h.CookieKey decoded = .ok (beBytes64 ts ++ tag ++ 32 :: subject))
    (hts : ts < 2 ^ 64) (htag : 32 ∉ tag) :
    (now - i64OfU64 ts > 86400 → h.Cookie r now = .err .errCookieExpired) ∧
    (now - i64OfU64 ts ≤ 86400 → tag ≠ h.Domain → h.Cookie r now = .err .errCookieDomain) ∧
    (now - i64OfU64 ts ≤ 86400 → tag = h.Domain → h.Cookie r now = .ok subject) := by
  have hred := cookie_read_reduce h r now v decoded (tag ++ 32 :: subject) ts
    hlook hdec hopen hts
  rw [splitOn_space_first tag subject htag] at hred
  simp only [List.headI_cons, List.tail_cons] at hred
  rw [intercalate_splitOn_space subject] at hred
  refine ⟨fun hexp => ?_, fun hnex hne => ?_, fun hnex heq => ?_⟩
  · rw [hred, if_pos hexp]
  · rw [hred, if_neg (by omega), if_pos hne]
  · rw [hred, if_neg (by omega), if_neg (fun hc => hc heq)]

set_option maxRecDepth 400000 in
theorem C4_read_checks_witness :
    baseHandler.Cookie (reqWithCookie (mkCookieValue tbGood)) 90000
        = .err .errCookieExpired ∧
      baseHandler.Cookie (reqWithCookie (mkCookieValue tbBadDom)) 2000
        = .err .errCookieDomain ∧
      baseHandler.Cookie (reqWithCookie (mkCookieValue tbGood)) 2000
        = .ok (strBytes "google_u123") :=
  ⟨(C4_read_checks baseHandler (reqWithCookie (mkCookieValue tbGood)) 90000
      (mkCookieValue tbGood) (EncryptBytes keyA rnd0 tbGood) (strBytes "a.example")
      (strBytes "google_u123") 1000 (by decide) (by decide) (by decide) (by decide)
      (by decide)).1 (by decide),
   (C4_read_checks baseHandler (reqWithCookie (mkCookieValue tbBadDom)) 2000
      (mkCookieValue tbBadDom) (EncryptBytes keyA rnd0 tbBadDom) (strBytes "b.example")
      (strBytes "google_u123") 1000 (by decide) (by decide) (by decide) (by decide)
      (by decide)).2.1 (by decide) (by decide),
   (C4_read_checks baseHandler (reqWithCookie (mkCookieValue tbGood)) 2000
      (mkCookieValue tbGood) (EncryptBytes keyA rnd0 tbGood) (strBytes "a.example")
      (strBytes "google_u123") 1000 (by decide) (by decide) (by decide) (by decide)
      (by decide)).2.2 (by decide) (by decide)⟩

/-- C7: for every subject-identity byte string — including ones containing
the space delimiter — and every space-free domain, reading back a cookie
issued for that subject and domain within 24 hours returns the subject
bytes exactly: everything after the first delimiter is the identity. -/
theorem C7_cookie_roundtrip (h : Handler) (r : Request) (nowI nowR : Int)
    (rnd : Nat → Nat) (subject : List Nat)
    (hdom : ∀ x ∈ h.Domain, x < 256) (hnsp : 32 ∉ h.Domain)
    (hsubj : ∀ x ∈ subject, x < 256)
    (hrnd : ∀ i, rnd i < 256)
    (hlo : -9223372036854775808 ≤ nowI) (hhi : nowI < 9223372036854775808)
    (hwin : nowR - nowI ≤ 86400)
    (hlook : r.cookieValue h.cookieName =
      some (base64urlEncode (EncryptBytes h.CookieKey rnd (h.setCookieTB nowI subject)))) :
    h.Cookie r nowR = .ok subject := by
  have htb : ∀ x ∈ h.setCookieTB nowI subject, x < 256 :=
    setCookieTB_bytes_lt h nowI subject hdom hsubj
  have henc := encryptBytes_bytes_lt h.CookieKey rnd _ hrnd htb
  have hdec := base64url_roundtrip _ henc
  have hopen : DecryptBytes h.CookieKey
      (EncryptBytes h.CookieKey rnd (h.setCookieTB nowI subject)) =
      .ok (beBytes64 (u64OfInt nowI) ++ (h.Domain ++ 32 :: subject)) := by
    rw [decrypt_encrypt, setCookieTB_eq, List.append_assoc]
  have hred := cookie_read_reduce h r nowR _ _ _ _ hlook hdec hopen (u64OfInt_lt nowI)
  rw [i64OfU64_u64OfInt nowI hlo hhi] at hred
  rw [splitOn_space_first h.Domain subject hnsp] at hred
  simp only [List.headI_cons, List.tail_cons] at hred
  rw [intercalate_splitOn_space subject] at hred
  rw [hred, if_neg (by omega)]
  simp

set_option maxRecDepth 400000 in
theorem C7_cookie_roundtrip_witness :
    baseHandler.Cookie
        (reqWithCookie (mkCookieValue (baseHandler.setCookieTB 5000 (strBytes "google_u 1 2"))))
        5500 = .ok (strBytes "google_u 1 2") :=
  C7_cookie_roundtrip baseHandler
    (reqWithCookie (mkCookieValue (baseHandler.setCookieTB 5000 (strBytes "google_u 1 2"))))
    5000 5500 rnd0 (strBytes "google_u 1 2")
    (by decide) (by decide) (by decide) (fun i => Nat.mod_lt _ (by omega))
    (by decide) (by decide) (by decide) (by decide)

/-- C1 (the source has a bug here): when the user-info fetch succeeds and
the ACL rejects the profile, `HandleRedirect` takes the error branch but
evaluates `err.Error()` on the nil error of the successful fetch — line
177 compares `err` against `h.acl(up)` instead of capturing the ACL
result — so the request panics with a nil-pointer dereference; the 500
response carrying the ACL's message is never written and no cookie is
issued. -/
theorem C1_acl_rejection_panics (h : Handler) (r : Request) (o : ProviderOutcome)
    (now : Int) (rnd : Nat → Nat) (rawState home : List Nat) (up : Profile)
    (e : GoError)
    (hst : base64urlDecode r.FormState = some rawState)
    (hdec : DecryptBytes h.StateKey rawState = .ok home)
    (hex : o.exchange = none)
    (hui : o.userinfo = .ok up)
    (hacl : h.acl up = some e) :
    h.HandleRedirect r o now rnd = .error .nilPointerDeref := by
  unfold Handler.HandleRedirect
  simp only [hst, hdec, hex, hui, hacl]
  simp [goErrError]

set_option maxRecDepth 400000 in
theorem C1_acl_rejection_panics_witness :
    aclDeny.HandleRedirect (reqCallback stateValue) (okOutcome profU) 0 rnd0
      = .error .nilPointerDeref :=
  C1_acl_rejection_panics aclDeny (reqCallback stateValue) (okOutcome profU) 0 rnd0
    (EncryptBytes keyB rnd0 (strBytes "/dashboard")) (strBytes "/dashboard") profU
    (.errMsg (strBytes "denied"))
    (by decide) (by decide) (by decide) (by decide) (by decide)

/-- C2 (amended): when the callback flow reaches the profile write-back and
the collaborator returns an error, `HandleRedirect` discards that error —
the session cookie is still set and the redirect to the origin URL is
still written; the flow does not abort. -/
theorem C2_writeback_error_ignored (h : Handler) (r : Request)
    (o : ProviderOutcome) (now : Int) (rnd : Nat → Nat)
    (rawState home : List Nat) (up : Profile) (e : GoError)
    (hst : base64urlDecode r.FormState = some rawState)
    (hdec : DecryptBytes h.StateKey rawState = .ok home)
    (hex : o.exchange = none)
    (hui : o.userinfo = .ok up)
    (hacl : h.acl up = none)
    (_hwp : h.writeProfile { up with ID := h.Service ++ strBytes "_" ++ up.Sub } = some e) :
    h.HandleRedirect r o now rnd =
      .ok [h.setCookie now rnd (h.Service ++ strBytes "_" ++ up.Sub),
        .redirect home 307] := by
  unfold Handler.HandleRedirect
  simp only [hst, hdec, hex, hui, hacl]
  simp

set_option maxRecDepth 400000 in
theorem C2_writeback_error_ignored_witness :
    hWriteFail.HandleRedirect (reqCallback stateValue) (okOutcome profU) 0 rnd0
      = .ok [hWriteFail.setCookie 0 rnd0 (strBytes "google_u123"),
        .redirect (strBytes "/dashboard") 307] :=
  C2_writeback_error_ignored hWriteFail (reqCallback stateValue) (okOutcome profU)
    0 rnd0 (EncryptBytes keyB rnd0 (strBytes "/dashboard")) (strBytes "/dashboard")
    profU (.errMsg (strBytes "db down"))
    (by decide) (by decide) (by decide) (by decide) (by decide) (by decide)

set_option maxRecDepth 400000 in
/-- C2 (counterexample to the claim as stated): a concrete run in which the
write-back collaborator returns an error and yet the response sets the
session cookie — the flow does not abort and a cookie is issued. -/
theorem C2_writeback_error_counterexample :
    hWriteFail.writeProfile { profU with ID := strBytes "google_u123" } =
        some (.errMsg (strBytes "db down")) ∧
      issuesCookie (hWriteFail.HandleRedirect (reqCallback stateValue)
        (okOutcome profU) 0 rnd0) = true := by
  exact ⟨by decide, by decide⟩

set_option maxRecDepth 400000 in
/-- C3 (refuting the claim at the empty-name configuration): with an empty
cookie-name field, issuance names the session cookie "session" via the
defaulting helper, while `HandleLogoff` names its clearing cookie after the
raw empty field, so the names differ and the logoff cookie cannot clear the
session cookie; path and domain do match. -/
theorem C3_logoff_name_mismatch :
    baseHandler.cookieName = strBytes "session" ∧
      actionCookieName (baseHandler.setCookie 0 rnd0 (strBytes "google_u123")) =
        strBytes "session" ∧
      baseHandler.HandleLogoff = [Action.setCookie {
        Name := []
        Value := []
        Expires := 0
        Path := strBytes "/"
        Domain := strBytes "a.example"
        Secure := true
        HttpOnly := true }] ∧
      ([] : List Nat) ≠ strBytes "session" := by
  exact ⟨by decide, by decide, by decide, by decide⟩

/-- C8: `HandleLogin` dispatches three ways on the session-cookie read: a
good cookie invokes the finalize-login side effect (default: a temporary
redirect to "/") and performs no provider redirect; a missing cookie
redirects to the provider authorization URL whose state parameter is the
base64url encoding of the request URL sealed under StateKey; any other
read error first writes the logoff cookie and then performs that same
provider redirect. -/
theorem C8_login_dispatch (h : Handler) (r : Request) (now : Int)
    (rnd : Nat → Nat) :
    (∀ b, h.Cookie r now = .ok b → h.HandleLogin r now rnd = .ok h.finalizeLogin) ∧
    (h.FinalizeLogin = none → h.finalizeLogin = [.redirect (strBytes "/") 307]) ∧
    (h.Cookie r now = .err .errNoCookie →
      h.HandleLogin r now rnd = .ok [.redirect
        (h.AuthCodeURL (base64urlEncode (EncryptBytes h.StateKey rnd r.URL))) 307]) ∧
    (∀ e, h.Cookie r now = .err e → e ≠ .errNoCookie →
      h.HandleLogin r now rnd = .ok (h.HandleLogoff ++ [.redirect
        (h.AuthCodeURL (base64urlEncode (EncryptBytes h.StateKey rnd r.URL))) 307])) := by
  refine ⟨fun b hb => ?_, fun hf => ?_, fun hnc => ?_, fun e he hne => ?_⟩
  · unfold Handler.HandleLogin
    simp only [hb]
  · unfold Handler.finalizeLogin
    rw [hf]
  · unfold Handler.HandleLogin
    simp only [hnc]
    simp
  · unfold Handler.HandleLogin
    simp only [he, if_pos hne]

set_option maxRecDepth 400000 in
theorem C8_login_dispatch_witness :
    (baseHandler.HandleLogin
        (reqWithCookie (mkCookieValue (baseHandler.setCookieTB 100 (strBytes "google_u123"))))
        200 rnd0 = .ok baseHandler.finalizeLogin) ∧
      (baseHandler.finalizeLogin = [.redirect (strBytes "/") 307]) ∧
      (baseHandler.HandleLogin reqNoCookie 0 rnd0 = .ok [.redirect
        (baseHandler.AuthCodeURL (base64urlEncode
          (EncryptBytes baseHandler.StateKey rnd0 reqNoCookie.URL))) 307]) ∧
      (baseHandler.HandleLogin (reqWithCookie (strBytes "!!")) 0 rnd0 =
        .ok (baseHandler.HandleLogoff ++ [.redirect
          (baseHandler.AuthCodeURL (base64urlEncode
            (EncryptBytes baseHandler.StateKey rnd0 (strBytes "/protected")))) 307])) :=
  ⟨(C8_login_dispatch baseHandler
      (reqWithCookie (mkCookieValue (baseHandler.setCookieTB 100 (strBytes "google_u123"))))
      200 rnd0).1 (strBytes "google_u123") (by decide),
   (C8_login_dispatch baseHandler reqNoCookie 0 rnd0).2.1 (by decide),
   (C8_login_dispatch baseHandler reqNoCookie 0 rnd0).2.2.1 (by decide),
   (C8_login_dispatch baseHandler (reqWithCookie (strBytes "!!")) 0 rnd0).2.2.2
     .errBase64 (by decide) (by decide)⟩
